import Mathlib

/-!
# Verification of `py2neo/rest.py` (generic REST client)

A shallow embedding of the single source file `src/py2neo/rest.py`.

The module wraps an external HTTP client (`geventhttpclient`) and an
external JSON codec (`json` / `simplejson`).  Both are external
collaborators; following the source's usage and the interface they expose
(status code, headers mapping, content length, a message-complete flag,
`read()`, `release()`), the transport is modelled as a deterministic
oracle mapping each issued request to a response, and the JSON decoder as
an arbitrary function from body text to a decoded value or a decode
error.  Python exceptions are modelled as an error sum; Python `None` is
the JSON-null value `JVal.jnull` (in Python the two are the same object).

The dispatcher `Resource._request` is recursive through the 302 branch,
so it is embedded with explicit fuel: `none` means the recursion did not
finish within the given fuel.  Besides the returned value / raised error
it produces an event trace (requests issued, body reads, connection
releases, each tagged with the index of the response it concerns), which
is what the temporal claims about draining and releasing are stated over.
-/

/-- Decoded JSON values, as produced by the external `json` codec; also the
universe of Python values flowing through this module (`jnull` is Python
`None`, `jstr` covers header strings). -/
inductive JVal where
  | jnull : JVal
  | jbool : Bool → JVal
  | jnum : Int → JVal
  | jstr : String → JVal
  | jarr : List JVal → JVal
  | jobj : List (String × JVal) → JVal
deriving Repr

/-- The Python exceptions this module can raise, with the payload each
carries.  `valueError` is the `ValueError` of the 400 branch,
`lookupError` the `LookupError` of the 404 branch, `conflictError` and
`serverError` the two `SystemError` raises (409 / unhandled status),
`jsonDecodeError` the decode failure escaping `json.load`, `keyError` the
`KeyError` of `_lookup`, `typeError` the `TypeError` of a `key in None`
test, `notImplementedError` the constructor's content-type rejection. -/
inductive PyError where
  | valueError : String → PyError
  | lookupError : Option String → PyError
  | conflictError : Option String → PyError
  | serverError : String → PyError
  | jsonDecodeError : String → PyError
  | keyError : String → PyError
  | typeError : String → PyError
  | notImplementedError : String → PyError
deriving Repr

/-- A response object as exposed by the external HTTP client: status code,
header mapping (keys lower-cased by the transport, so `transfer-encoding`,
`location`, `content-location` are looked up in lower case), parsed
content length (`none` when the header is absent), the message-complete
flag, and the body text that `read()` / `json.load` would consume. -/
structure Response where
  status_code : Nat
  headers : List (String × String)
  content_length : Option Nat
  message_complete : Bool
  body : String
deriving Repr, DecidableEq

/-- A request as handed to `self._http.request(method, uri, data, headers)`.
`uri` and `data` are `Option` because Python passes `None` there (`data`
defaults to `None`; a redirect with no `location` header would pass
`None` as the URI). -/
structure Request where
  method : String
  uri : Option String
  data : Option String
  headers : List (String × String)
deriving Repr, DecidableEq

/-- The external HTTP client, modelled as a deterministic oracle from
issued request to response. -/
def Transport : Type := Request → Response

/-- Header lookup in a response's header mapping (the `response[key]` /
`key in dict` accesses of the source): the first binding of the key, or
`none` when absent. -/
def headerGet (hs : List (String × String)) (key : String) : Option String :=
  (hs.find? fun p => p.1 == key).map fun p => p.2

/-- Python truthiness of `response.content_length` (`None` and `0` are
falsy). -/
def truthy : Option Nat → Bool
  | none => false
  | some n => n != 0

/-- `Resource.__get_request_headers`: a mapping from each requested key to
the content type, restricted to the `Accept` / `Content-Type` keys. -/
def getRequestHeaders (ct : String) (keys : List String) : List (String × String) :=
  (keys.filter fun k => k == "Accept" || k == "Content-Type").map fun k => (k, ct)

/-- The header-building prelude of `_request`: both keys when a payload is
present, only `Accept` otherwise. -/
def requestHeaders (ct : String) (data : Option String) : List (String × String) :=
  match data with
  | some _ => getRequestHeaders ct ["Accept", "Content-Type"]
  | none => getRequestHeaders ct ["Accept"]

/-- The request `_request` hands to the transport for a given method, URI
and payload, under content type `ct`. -/
def mkRequest (ct : String) (method : String) (uri : Option String) (data : Option String) :
    Request :=
  { method := method, uri := uri, data := data, headers := requestHeaders ct data }

/-- The `Resource` state: its URI, content type, index (`jnull` is Python
`None`, i.e. no index cached yet), and the `__response_headers` attribute
(`none` while still unset; `_request` assigns it on every call).  The
`_http` handle, `_base_uri` and `_relative_uri` attributes are opaque or
never read in this module and are not part of the state. -/
structure Resource where
  uri : String
  content_type : String
  index : JVal
  responseHeaders : Option (List (String × String))
deriving Repr

/-- `SUPPORTED_CONTENT_TYPES` of the source. -/
def SUPPORTED_CONTENT_TYPES : List String := ["application/json"]

/-- `Resource.__init__`: rejects an unsupported content type with
`NotImplementedError`, otherwise records URI, content type and the
(optionally pre-supplied) index; `__response_headers` starts unset. -/
def Resource.init (uri : String) (content_type : String := "application/json")
    (index : JVal := .jnull) : Except PyError Resource :=
  if content_type ∈ SUPPORTED_CONTENT_TYPES then
    .ok { uri := uri, content_type := content_type, index := index, responseHeaders := none }
  else
    .error (.notImplementedError ("Content type " ++ content_type ++ " not supported"))

/-- The observable events of a dispatcher run, each tagged with the index
of the response it concerns (responses are numbered in the order their
requests are issued): a request issued to the transport, a body read
(`response.read()`, or the full read `json.load` performs), and a
connection release (`response.release()`). -/
inductive Event where
  | req : Nat → Request → Event
  | readEv : Nat → Event
  | releaseEv : Nat → Event
deriving Repr, DecidableEq

/-- Outcome of a finished dispatcher run: updated resource state, next
fresh response index, event trace, and the returned value or raised
error. -/
def ReqOut : Type := Resource × Nat × List Event × Except PyError JVal

/-- `Resource._request`, with fuel bounding the depth of the 302
recursion (`none` = the recursion did not finish within the fuel).
Mirrors the source branch by branch:

* assign `__response_headers` from the response before dispatching;
* 200: if `content_length` is truthy or `transfer-encoding` is `chunked`,
  `json.load(response)` (which reads the whole body, then decodes — so a
  read event precedes the release even on decode failure), else `None`;
* 201: the `location` header value (`None` when absent, as the header
  mapping's lookup returns `None`);
* 204: `None`;
* 302: drain the body if the message is incomplete, then recurse with
  `GET` on the `location` header value, returning that call's result;
* 400 / 404 / 409 / other: raise, reading the body where the source does
  (`response.read()` appears in the 400 and catch-all raises only);
* every branch of the source returns or raises, so the trailing
  `if not response.message_complete: response.read()` of the source is
  unreachable and no branch below performs it; the `finally` clause
  releases the response's connection on every path. -/
def requestFuel (t : Transport) (jload : String → Except String JVal) :
    Nat → Resource → String → Option String → Option String → Nat → Option ReqOut
  | 0, _, _, _, _, _ => none
  | fuel + 1, r, method, uri, data, id =>
    let q := mkRequest r.content_type method uri data
    let resp := t q
    let r1 : Resource := { r with responseHeaders := some resp.headers }
    if resp.status_code = 200 then
      if truthy resp.content_length ∨ headerGet resp.headers "transfer-encoding" = some "chunked" then
        match jload resp.body with
        | .ok v => some (r1, id + 1, [.req id q, .readEv id, .releaseEv id], .ok v)
        | .error e => some (r1, id + 1, [.req id q, .readEv id, .releaseEv id],
            .error (.jsonDecodeError e))
      else
        some (r1, id + 1, [.req id q, .releaseEv id], .ok .jnull)
    else if resp.status_code = 201 then
      some (r1, id + 1, [.req id q, .releaseEv id],
        .ok (match headerGet resp.headers "location" with
          | some loc => .jstr loc
          | none => .jnull))
    else if resp.status_code = 204 then
      some (r1, id + 1, [.req id q, .releaseEv id], .ok .jnull)
    else if resp.status_code = 302 then
      let drain : List Event := if resp.message_complete then [] else [.readEv id]
      match requestFuel t jload fuel r1 "GET" (headerGet resp.headers "location") none (id + 1) with
      | none => none
      | some (r2, nid, evts, res) =>
        some (r2, nid, .req id q :: (drain ++ evts ++ [.releaseEv id]), res)
    else if resp.status_code = 400 then
      some (r1, id + 1, [.req id q, .readEv id, .releaseEv id], .error (.valueError resp.body))
    else if resp.status_code = 404 then
      some (r1, id + 1, [.req id q, .releaseEv id], .error (.lookupError uri))
    else if resp.status_code = 409 then
      some (r1, id + 1, [.req id q, .releaseEv id], .error (.conflictError uri))
    else
      some (r1, id + 1, [.req id q, .readEv id, .releaseEv id], .error (.serverError resp.body))

/-- The Python membership test `key in v` for the values `_lookup` can
hold in `_index`: dict key containment, list element equality against the
string key, substring containment in a string, and a `TypeError` on the
non-container values (in particular `key in None`). -/
def JVal.pyContains (v : JVal) (key : String) : Except PyError Bool :=
  match v with
  | .jobj fs => .ok (fs.any fun p => p.1 == key)
  | .jarr xs => .ok (xs.any fun x => match x with | .jstr s => s == key | _ => false)
  | .jstr s => .ok (key == "" || (s.splitOn key).length ≥ 2)
  | _ => .error (.typeError "argument of type NoneType is not iterable")

/-- The Python subscript `v[key]` with a string key: dict lookup
(`KeyError` when absent), `TypeError` on the other values.  In `_lookup`
it only runs after `key in v` succeeded. -/
def JVal.pyGetItem (v : JVal) (key : String) : Except PyError JVal :=
  match v with
  | .jobj fs =>
    match fs.find? (fun p => p.1 == key) with
    | some p => .ok p.2
    | none => .error (.keyError key)
  | _ => .error (.typeError "indices must be integers")

/-- The tail of `_lookup`: `key in self._index` then `self._index[key]`,
raising `KeyError(key)` when the membership test succeeds negatively. -/
def finishLookup (r : Resource) (key : String) : Except PyError JVal :=
  match r.index.pyContains key with
  | .error e => .error e
  | .ok true => r.index.pyGetItem key
  | .ok false => .error (.keyError key)

/-- The URI self-correction step of `_lookup`: when the (now set)
`__response_headers` dict is truthy (non-empty) and holds a
`content-location` key, replace the resource's URI by that header's
value. -/
def adoptContentLocation (r : Resource) : Resource :=
  match r.responseHeaders with
  | some hs =>
    if hs ≠ [] ∧ (headerGet hs "content-location").isSome then
      { r with uri := (headerGet hs "content-location").getD r.uri }
    else r
  | none => r

/-- `Resource._lookup`: when no index is cached (`self._index is None`),
fetch one with `self._get(self._uri)`; on success store the result as the
index and apply the `content-location` URI self-correction; a raise
inside the fetch propagates before the index is assigned.  Then
membership-test and subscript the index. -/
def lookupFuel (t : Transport) (jload : String → Except String JVal) (fuel : Nat)
    (r : Resource) (key : String) (id : Nat) : Option ReqOut :=
  match r.index with
  | .jnull =>
    match requestFuel t jload fuel r "GET" (some r.uri) none id with
    | none => none
    | some (r1, nid, evts, .error e) => some (r1, nid, evts, .error e)
    | some (r1, nid, evts, .ok v) =>
      let r3 : Resource := adoptContentLocation { r1 with index := v }
      some (r3, nid, evts, finishLookup r3 key)
  | _ => some (r, id, [], finishLookup r key)

theorem adoptContentLocation_index (r : Resource) :
    (adoptContentLocation r).index = r.index := by
  unfold adoptContentLocation
  split <;> first | rfl | (split <;> rfl)

theorem adoptContentLocation_content_type (r : Resource) :
    (adoptContentLocation r).content_type = r.content_type := by
  unfold adoptContentLocation
  split <;> first | rfl | (split <;> rfl)

theorem adoptContentLocation_responseHeaders (r : Resource) :
    (adoptContentLocation r).responseHeaders = r.responseHeaders := by
  unfold adoptContentLocation
  split <;> first | rfl | (split <;> rfl)

theorem adoptContentLocation_uri_of_some (r : Resource) (hs : List (String × String))
    (cl : String) (h : r.responseHeaders = some hs)
    (hcl : headerGet hs "content-location" = some cl) :
    (adoptContentLocation r).uri = cl := by
  have hne : hs ≠ [] := by
    intro he
    rw [he] at hcl
    simp [headerGet] at hcl
  unfold adoptContentLocation
  simp only [h]
  rw [if_pos ⟨hne, by rw [hcl]; rfl⟩, hcl]
  rfl

theorem adoptContentLocation_uri_of_none (r : Resource) (hs : List (String × String))
    (h : r.responseHeaders = some hs)
    (hcl : headerGet hs "content-location" = none) :
    (adoptContentLocation r).uri = r.uri := by
  unfold adoptContentLocation
  simp only [h]
  rw [if_neg ?_]
  intro hc
  rw [hcl] at hc
  simp at hc

/-! ## Concrete fixtures used by witnesses and counterexample runs -/

/-- A JSON decoder for concrete runs: decodes the fixture body `"INDEX"`
to a one-entry object, anything else to its text as a JSON string. -/
def jl0 : String → Except String JVal := fun s =>
  if s = "INDEX" then .ok (.jobj [("people", .jstr "/people")]) else .ok (.jstr s)

/-- A decoder that always fails, for decode-failure runs. -/
def jlBad : String → Except String JVal := fun _ => .error "no json could be decoded"

/-- A freshly constructed resource with no index. -/
def r0 : Resource :=
  { uri := "http://svc/node/1", content_type := "application/json",
    index := .jnull, responseHeaders := none }

/-- Transport answering 200 with a chunked non-empty body. -/
def t200 : Transport := fun _ =>
  { status_code := 200, headers := [("transfer-encoding", "chunked")],
    content_length := none, message_complete := true, body := "INDEX" }

/-- Transport answering 200 with an empty body: no content length, not
chunked. -/
def t200empty : Transport := fun _ =>
  { status_code := 200, headers := [], content_length := none,
    message_complete := true, body := "" }

/-- Transport answering 201 with a `location` header and an unread body
(`message_complete = false`). -/
def t201 : Transport := fun _ =>
  { status_code := 201, headers := [("location", "http://svc/node/2")],
    content_length := some 11, message_complete := false, body := "unread body" }

/-- Transport answering 204. -/
def t204 : Transport := fun _ =>
  { status_code := 204, headers := [], content_length := none,
    message_complete := true, body := "" }

/-- Transport answering 400 with a body. -/
def t400 : Transport := fun _ =>
  { status_code := 400, headers := [], content_length := some 3,
    message_complete := false, body := "bad" }

/-- Transport answering 404. -/
def t404 : Transport := fun _ =>
  { status_code := 404, headers := [], content_length := none,
    message_complete := true, body := "" }

/-- Transport answering 409. -/
def t409 : Transport := fun _ =>
  { status_code := 409, headers := [], content_length := none,
    message_complete := true, body := "" }

/-- Transport answering an unhandled 500 with a body. -/
def t500 : Transport := fun _ =>
  { status_code := 500, headers := [], content_length := some 4,
    message_complete := false, body := "boom" }

/-! ## C9 — construction-time content-type validation -/

/-- Claim C9: resource construction succeeds for every content type in
the supported set (only `application/json`), and fails with the
`NotImplementedError` unsupported-content-type error, carrying the
offending content type, for any string outside the set. -/
theorem c9_construction (uri ct : String) (idx : JVal) :
    (ct ∈ SUPPORTED_CONTENT_TYPES →
      Resource.init uri ct idx =
        .ok { uri := uri, content_type := ct, index := idx, responseHeaders := none }) ∧
    (ct ∉ SUPPORTED_CONTENT_TYPES →
      Resource.init uri ct idx =
        .error (.notImplementedError ("Content type " ++ ct ++ " not supported"))) := by
  constructor <;> intro h <;> simp [Resource.init, h]

/-- Witness for C9 at the supported type and at `text/xml`. -/
theorem c9_construction_witness :
    Resource.init "http://svc/node/1" "application/json" .jnull =
      .ok { uri := "http://svc/node/1", content_type := "application/json",
            index := .jnull, responseHeaders := none } ∧
    Resource.init "http://svc/node/1" "text/xml" .jnull =
      .error (.notImplementedError "Content type text/xml not supported") :=
  ⟨(c9_construction _ _ _).1 (by decide), (c9_construction _ _ _).2 (by decide)⟩

/-! ## C1 — drain-before-release on every exit path -/

/-- Claim C1 (code bug): the source's catch-all drain
`if not response.message_complete: response.read()` sits after an
`if`/`elif` chain in which every branch returns or raises, so it is
unreachable.  Evaluated at a 201 response whose message is not complete
(an unread body), the run's trace contains the release of response 0 but
no read of it: the connection is released (the `finally` clause fires on
every path, as the spec says) but the unread body is never drained,
against the spec's drain-on-every-exit-path sentence. -/
theorem c1_released_without_drain :
    (t201 (mkRequest "application/json" "GET" (some "http://svc/node/1") none)).message_complete
        = false ∧
    requestFuel t201 jl0 1 r0 "GET" (some "http://svc/node/1") none 0 =
      some ({ r0 with responseHeaders := some [("location", "http://svc/node/2")] }, 1,
        [.req 0 (mkRequest "application/json" "GET" (some "http://svc/node/1") none),
         .releaseEv 0],
        .ok (.jstr "http://svc/node/2")) :=
  ⟨rfl, rfl⟩

/-! ## C2 — success statuses 200 / 201 / 204 -/

/-- The four success branches of the dispatcher, as one unfolding lemma:
200 with a non-empty body decodes the body, 200 with an empty body and
204 return `None`, 201 returns the `location` header value. -/
theorem requestFuel_success_cases (t : Transport) (jload : String → Except String JVal)
    (fuel : Nat) (r : Resource) (method : String) (uri data : Option String) (id : Nat)
    (q : Request) (resp : Response)
    (hq : q = mkRequest r.content_type method uri data) (hresp : resp = t q) :
    (resp.status_code = 200 →
      (truthy resp.content_length ∨ headerGet resp.headers "transfer-encoding" = some "chunked") →
      requestFuel t jload (fuel + 1) r method uri data id =
        some ({ r with responseHeaders := some resp.headers }, id + 1,
          [.req id q, .readEv id, .releaseEv id],
          match jload resp.body with
          | .ok v => .ok v
          | .error e => .error (.jsonDecodeError e))) ∧
    (resp.status_code = 200 →
      ¬ (truthy resp.content_length ∨ headerGet resp.headers "transfer-encoding" = some "chunked") →
      requestFuel t jload (fuel + 1) r method uri data id =
        some ({ r with responseHeaders := some resp.headers }, id + 1,
          [.req id q, .releaseEv id], .ok .jnull)) ∧
    (∀ loc, resp.status_code = 201 → headerGet resp.headers "location" = some loc →
      requestFuel t jload (fuel + 1) r method uri data id =
        some ({ r with responseHeaders := some resp.headers }, id + 1,
          [.req id q, .releaseEv id], .ok (.jstr loc))) ∧
    (resp.status_code = 204 →
      requestFuel t jload (fuel + 1) r method uri data id =
        some ({ r with responseHeaders := some resp.headers }, id + 1,
          [.req id q, .releaseEv id], .ok .jnull)) := by
  subst hq
  subst hresp
  refine ⟨?_, ?_, ?_, ?_⟩
  · intro h1 h2
    simp only [requestFuel, h1, if_true, if_pos h2]
    cases jload (t (mkRequest r.content_type method uri data)).body <;> rfl
  · intro h1 h2
    simp only [requestFuel, h1, if_true, if_neg h2]
  · intro loc h1 h2
    simp only [requestFuel, h1, h2]
    norm_num
  · intro h1
    simp only [requestFuel, h1]
    norm_num

/-- Claim C2: for the response the dispatcher receives, a 200 with a
non-empty body (truthy content length, or chunked transfer encoding)
returns the body handed to the JSON decoder (its decoded value, or the
decode failure as a raised error); a 200 with an empty body returns
`None`; a 201 returns exactly the `location` header value with no body
parsing (the result does not depend on the decoder or the body); a 204
returns `None`. -/
theorem c2_success_statuses (t : Transport) (jload : String → Except String JVal)
    (fuel : Nat) (r : Resource) (method : String) (uri data : Option String) (id : Nat)
    (q : Request) (resp : Response)
    (hq : q = mkRequest r.content_type method uri data) (hresp : resp = t q) :
    (resp.status_code = 200 →
      (truthy resp.content_length ∨ headerGet resp.headers "transfer-encoding" = some "chunked") →
      requestFuel t jload (fuel + 1) r method uri data id =
        some ({ r with responseHeaders := some resp.headers }, id + 1,
          [.req id q, .readEv id, .releaseEv id],
          match jload resp.body with
          | .ok v => .ok v
          | .error e => .error (.jsonDecodeError e))) ∧
    (resp.status_code = 200 →
      ¬ (truthy resp.content_length ∨ headerGet resp.headers "transfer-encoding" = some "chunked") →
      requestFuel t jload (fuel + 1) r method uri data id =
        some ({ r with responseHeaders := some resp.headers }, id + 1,
          [.req id q, .releaseEv id], .ok .jnull)) ∧
    (∀ loc, resp.status_code = 201 → headerGet resp.headers "location" = some loc →
      requestFuel t jload (fuel + 1) r method uri data id =
        some ({ r with responseHeaders := some resp.headers }, id + 1,
          [.req id q, .releaseEv id], .ok (.jstr loc))) ∧
    (resp.status_code = 204 →
      requestFuel t jload (fuel + 1) r method uri data id =
        some ({ r with responseHeaders := some resp.headers }, id + 1,
          [.req id q, .releaseEv id], .ok .jnull)) :=
  requestFuel_success_cases t jload fuel r method uri data id q resp hq hresp

/-- Witness for C2, exercising all four conjuncts: a chunked 200 body
decoded by the fixture decoder, an empty 200, a 201 with a `location`
header, and a 204. -/
theorem c2_success_statuses_witness :
    requestFuel t200 jl0 1 r0 "GET" (some "http://svc/node/1") none 0 =
      some ({ r0 with responseHeaders := some [("transfer-encoding", "chunked")] }, 1,
        [.req 0 (mkRequest "application/json" "GET" (some "http://svc/node/1") none),
         .readEv 0, .releaseEv 0],
        .ok (.jobj [("people", .jstr "/people")])) ∧
    requestFuel t200empty jl0 1 r0 "GET" (some "http://svc/node/1") none 0 =
      some ({ r0 with responseHeaders := some [] }, 1,
        [.req 0 (mkRequest "application/json" "GET" (some "http://svc/node/1") none),
         .releaseEv 0], .ok .jnull) ∧
    requestFuel t201 jl0 1 r0 "POST" (some "http://svc/node") (some "DATA") 0 =
      some ({ r0 with responseHeaders := some [("location", "http://svc/node/2")] }, 1,
        [.req 0 (mkRequest "application/json" "POST" (some "http://svc/node") (some "DATA")),
         .releaseEv 0], .ok (.jstr "http://svc/node/2")) ∧
    requestFuel t204 jl0 1 r0 "DELETE" (some "http://svc/node/1") none 0 =
      some ({ r0 with responseHeaders := some [] }, 1,
        [.req 0 (mkRequest "application/json" "DELETE" (some "http://svc/node/1") none),
         .releaseEv 0], .ok .jnull) :=
  ⟨(c2_success_statuses t200 jl0 0 r0 "GET" (some "http://svc/node/1") none 0 _ _
      rfl rfl).1 rfl (Or.inr rfl),
   (c2_success_statuses t200empty jl0 0 r0 "GET" (some "http://svc/node/1") none 0 _ _
      rfl rfl).2.1 rfl (by decide),
   (c2_success_statuses t201 jl0 0 r0 "POST" (some "http://svc/node") (some "DATA") 0 _ _
      rfl rfl).2.2.1 "http://svc/node/2" rfl rfl,
   (c2_success_statuses t204 jl0 0 r0 "DELETE" (some "http://svc/node/1") none 0 _ _
      rfl rfl).2.2.2 rfl⟩

/-! ## C3 — error statuses 400 / 404 / 409 / other -/

/-- Claim C3: a 400 raises the bad-request error (`ValueError`) carrying
the raw response body; a 404 raises the not-found error (`LookupError`)
carrying the requested URI; a 409 raises the conflict error
(`SystemError`) carrying the requested URI; any status outside the
handled set raises the generic server error (`SystemError`) carrying the
raw response body. -/
theorem c3_error_statuses (t : Transport) (jload : String → Except String JVal)
    (fuel : Nat) (r : Resource) (method : String) (uri data : Option String) (id : Nat)
    (q : Request) (resp : Response)
    (hq : q = mkRequest r.content_type method uri data) (hresp : resp = t q) :
    (resp.status_code = 400 →
      requestFuel t jload (fuel + 1) r method uri data id =
        some ({ r with responseHeaders := some resp.headers }, id + 1,
          [.req id q, .readEv id, .releaseEv id], .error (.valueError resp.body))) ∧
    (resp.status_code = 404 →
      requestFuel t jload (fuel + 1) r method uri data id =
        some ({ r with responseHeaders := some resp.headers }, id + 1,
          [.req id q, .releaseEv id], .error (.lookupError uri))) ∧
    (resp.status_code = 409 →
      requestFuel t jload (fuel + 1) r method uri data id =
        some ({ r with responseHeaders := some resp.headers }, id + 1,
          [.req id q, .releaseEv id], .error (.conflictError uri))) ∧
    (resp.status_code ∉ ([200, 201, 204, 302, 400, 404, 409] : List Nat) →
      requestFuel t jload (fuel + 1) r method uri data id =
        some ({ r with responseHeaders := some resp.headers }, id + 1,
          [.req id q, .readEv id, .releaseEv id], .error (.serverError resp.body))) := by
  subst hq
  subst hresp
  refine ⟨?_, ?_, ?_, ?_⟩
  · intro h1
    simp only [requestFuel, h1]
    norm_num
  · intro h1
    simp only [requestFuel, h1]
    norm_num
  · intro h1
    simp only [requestFuel, h1]
    norm_num
  · intro h1
    simp only [List.mem_cons, List.mem_singleton, not_or] at h1
    obtain ⟨n200, n201, n204, n302, n400, n404, n409, -⟩ := h1
    simp only [requestFuel, if_neg n200, if_neg n201, if_neg n204, if_neg n302,
      if_neg n400, if_neg n404, if_neg n409]

/-- Witness for C3, exercising all four conjuncts: 400, 404, 409 and an
unhandled 500. -/
theorem c3_error_statuses_witness :
    requestFuel t400 jl0 1 r0 "POST" (some "http://svc/node") (some "DATA") 0 =
      some ({ r0 with responseHeaders := some [] }, 1,
        [.req 0 (mkRequest "application/json" "POST" (some "http://svc/node") (some "DATA")),
         .readEv 0, .releaseEv 0], .error (.valueError "bad")) ∧
    requestFuel t404 jl0 1 r0 "GET" (some "http://svc/node/9") none 0 =
      some ({ r0 with responseHeaders := some [] }, 1,
        [.req 0 (mkRequest "application/json" "GET" (some "http://svc/node/9") none),
         .releaseEv 0], .error (.lookupError (some "http://svc/node/9"))) ∧
    requestFuel t409 jl0 1 r0 "DELETE" (some "http://svc/node/1") none 0 =
      some ({ r0 with responseHeaders := some [] }, 1,
        [.req 0 (mkRequest "application/json" "DELETE" (some "http://svc/node/1") none),
         .releaseEv 0], .error (.conflictError (some "http://svc/node/1"))) ∧
    requestFuel t500 jl0 1 r0 "GET" (some "http://svc/node/1") none 0 =
      some ({ r0 with responseHeaders := some [] }, 1,
        [.req 0 (mkRequest "application/json" "GET" (some "http://svc/node/1") none),
         .readEv 0, .releaseEv 0], .error (.serverError "boom")) :=
  ⟨(c3_error_statuses t400 jl0 0 r0 "POST" (some "http://svc/node") (some "DATA") 0 _ _
      rfl rfl).1 rfl,
   (c3_error_statuses t404 jl0 0 r0 "GET" (some "http://svc/node/9") none 0 _ _
      rfl rfl).2.1 rfl,
   (c3_error_statuses t409 jl0 0 r0 "DELETE" (some "http://svc/node/1") none 0 _ _
      rfl rfl).2.2.1 rfl,
   (c3_error_statuses t500 jl0 0 r0 "GET" (some "http://svc/node/1") none 0 _ _
      rfl rfl).2.2.2 (by decide)⟩

/-! ## C4 — 302 redirect follow -/

/-- Transport answering 302 (with an unread body) at the old URI and a
chunked 200 elsewhere. -/
def t302once : Transport := fun q =>
  if q.uri = some "http://svc/old" then
    { status_code := 302, headers := [("location", "http://svc/new")],
      content_length := some 5, message_complete := false, body := "moved" }
  else
    { status_code := 200, headers := [("transfer-encoding", "chunked")],
      content_length := none, message_complete := true, body := "INDEX" }

/-- Claim C4: on a 302 carrying `location` X, the dispatcher re-issues
the request as a `GET` against X with no payload, after draining the
response's body when the message is incomplete (the read event precedes
the follow-up events; no read happens when the message is complete), and
the follow-up call's outcome — its value or raised error, and its
non-termination — is the outer call's outcome. -/
theorem c4_redirect_follow (t : Transport) (jload : String → Except String JVal)
    (fuel : Nat) (r : Resource) (method : String) (uri data : Option String) (id : Nat)
    (q : Request) (resp : Response) (loc : String)
    (hq : q = mkRequest r.content_type method uri data) (hresp : resp = t q)
    (h302 : resp.status_code = 302)
    (hloc : headerGet resp.headers "location" = some loc) :
    (requestFuel t jload fuel { r with responseHeaders := some resp.headers }
        "GET" (some loc) none (id + 1) = none →
      requestFuel t jload (fuel + 1) r method uri data id = none) ∧
    (∀ r2 nid evts res,
      requestFuel t jload fuel { r with responseHeaders := some resp.headers }
          "GET" (some loc) none (id + 1) = some (r2, nid, evts, res) →
      requestFuel t jload (fuel + 1) r method uri data id =
        some (r2, nid,
          .req id q ::
            ((if resp.message_complete then [] else [.readEv id]) ++ evts ++ [.releaseEv id]),
          res)) := by
  subst hq
  subst hresp
  constructor
  · intro hinner
    simp only [requestFuel, h302, hloc]
    norm_num
    simp only [hinner]
  · intro r2 nid evts res hinner
    simp only [requestFuel, h302, hloc]
    norm_num
    simp only [hinner]

/-- Witness for C4: a 302 at the old URI followed to a 200 at the new
one; the outer run's result is the follow-up's decoded value, the drain
read of response 0 precedes the follow-up request, and response 0's
release closes the trace. -/
theorem c4_redirect_follow_witness :
    requestFuel t302once jl0 2 r0 "GET" (some "http://svc/old") none 0 =
      some ({ r0 with responseHeaders := some [("transfer-encoding", "chunked")] }, 2,
        [.req 0 (mkRequest "application/json" "GET" (some "http://svc/old") none),
         .readEv 0,
         .req 1 (mkRequest "application/json" "GET" (some "http://svc/new") none),
         .readEv 1, .releaseEv 1, .releaseEv 0],
        .ok (.jobj [("people", .jstr "/people")])) :=
  (c4_redirect_follow t302once jl0 1 r0 "GET" (some "http://svc/old") none 0 _ _
      "http://svc/new" rfl rfl rfl rfl).2
    { r0 with responseHeaders := some [("transfer-encoding", "chunked")] } 2
    [.req 1 (mkRequest "application/json" "GET" (some "http://svc/new") none),
     .readEv 1, .releaseEv 1]
    (.ok (.jobj [("people", .jstr "/people")])) rfl

/-! ## C5 — termination of the redirect recursion -/

/-- One step of the redirect chain: the (method, URI, payload) triple the
302 branch would re-issue after the response to the given triple —
`GET`, the response's `location` header, no payload. -/
def redirectStep (t : Transport) (ct : String) :
    String × Option String × Option String → String × Option String × Option String :=
  fun mud =>
    ("GET", headerGet (t (mkRequest ct mud.1 mud.2.1 mud.2.2)).headers "location", none)

/-- The status code of the response at position `k` of the redirect chain
starting from the given (method, URI, payload) triple. -/
def statusAt (t : Transport) (ct : String)
    (mud : String × Option String × Option String) (k : Nat) : Nat :=
  let s := (redirectStep t ct)^[k] mud
  (t (mkRequest ct s.1 s.2.1 s.2.2)).status_code

theorem statusAt_succ (t : Transport) (ct : String)
    (mud : String × Option String × Option String) (k : Nat) :
    statusAt t ct mud (k + 1) = statusAt t ct (redirectStep t ct mud) k := by
  simp [statusAt, Function.iterate_succ_apply]

/-- Every non-302 response is handled in one step: each branch of the
dispatcher other than the redirect one returns or raises immediately. -/
theorem requestFuel_isSome_of_ne302 (t : Transport) (jload : String → Except String JVal)
    (fuel : Nat) (r : Resource) (method : String) (uri data : Option String) (id : Nat)
    (h : (t (mkRequest r.content_type method uri data)).status_code ≠ 302) :
    (requestFuel t jload (fuel + 1) r method uri data id).isSome := by
  simp only [requestFuel]
  split_ifs <;>
    first
      | rfl
      | (cases jload (t (mkRequest r.content_type method uri data)).body <;> rfl)

/-- If the redirect chain reaches a non-302 response at position `k`,
fuel `k + 1` (hence any larger fuel) completes the dispatch. -/
theorem requestFuel_isSome_of_statusAt (t : Transport) (jload : String → Except String JVal) :
    ∀ (k : Nat) (r : Resource) (method : String) (uri data : Option String) (id fuel : Nat),
      statusAt t r.content_type (method, uri, data) k ≠ 302 → k < fuel →
      (requestFuel t jload fuel r method uri data id).isSome := by
  intro k
  induction k with
  | zero =>
    intro r method uri data id fuel h hf
    match fuel, hf with
    | fuel + 1, _ => exact requestFuel_isSome_of_ne302 t jload fuel r method uri data id h
  | succ k ih =>
    intro r method uri data id fuel h hf
    match fuel, hf with
    | fuel + 1, hf =>
      by_cases hs : (t (mkRequest r.content_type method uri data)).status_code = 302
      · simp only [requestFuel, hs]
        norm_num
        have h' : statusAt t r.content_type
            ("GET", headerGet (t (mkRequest r.content_type method uri data)).headers "location",
              none) k ≠ 302 := by
          rw [statusAt_succ] at h
          exact h
        have hin := ih { uri := r.uri, content_type := r.content_type, index := r.index, responseHeaders := some (t (mkRequest r.content_type method uri data)).headers } "GET" (headerGet (t (mkRequest r.content_type method uri data)).headers "location") none (id + 1) fuel h' (Nat.lt_of_succ_lt_succ hf)
        obtain ⟨out, hout⟩ := Option.isSome_iff_exists.mp hin
        obtain ⟨r2, nid, evts, res⟩ := out
        rw [hout]
        rfl
      · exact requestFuel_isSome_of_ne302 t jload fuel r method uri data id hs

/-- Against a transport that answers 302 to every request, the dispatch
exhausts any amount of fuel. -/
theorem requestFuel_none_of_all302 (t : Transport) (jload : String → Except String JVal)
    (h : ∀ q, (t q).status_code = 302) :
    ∀ (fuel : Nat) (r : Resource) (method : String) (uri data : Option String) (id : Nat),
      requestFuel t jload fuel r method uri data id = none := by
  intro fuel
  induction fuel with
  | zero => intro r method uri data id; rfl
  | succ fuel ih =>
    intro r method uri data id
    simp only [requestFuel, h]
    norm_num
    rw [ih]

/-- Claim C5: the dispatcher terminates whenever the redirect chain hits
a non-302 response after finitely many 302s — fuel beyond that position
suffices — and, because no redirect-count or cycle guard exists, against
a transport answering 302 to every request the redirect recursion
completes under no amount of fuel. -/
theorem c5_redirect_termination (t : Transport) (jload : String → Except String JVal)
    (r : Resource) (method : String) (uri data : Option String) (id : Nat) :
    (∀ k, statusAt t r.content_type (method, uri, data) k ≠ 302 →
      ∀ fuel, k < fuel → (requestFuel t jload fuel r method uri data id).isSome) ∧
    ((∀ q, (t q).status_code = 302) →
      ∀ fuel, requestFuel t jload fuel r method uri data id = none) :=
  ⟨fun k h fuel hf => requestFuel_isSome_of_statusAt t jload k r method uri data id fuel h hf,
   fun h fuel => requestFuel_none_of_all302 t jload h fuel r method uri data id⟩

/-- Transport answering 302 to every request (an unbounded redirect
loop). -/
def t302loop : Transport := fun _ =>
  { status_code := 302, headers := [("location", "http://svc/loop")],
    content_length := none, message_complete := true, body := "" }

/-- Witness for C5: one fuel unit settles a chain whose first response is
a 404, and no fuel settles the all-302 loop transport. -/
theorem c5_redirect_termination_witness :
    (requestFuel t404 jl0 1 r0 "GET" (some "http://svc/node/1") none 0).isSome ∧
    requestFuel t302loop jl0 5 r0 "GET" (some "http://svc/node/1") none 0 = none :=
  ⟨(c5_redirect_termination t404 jl0 r0 "GET" (some "http://svc/node/1") none 0).1
      0 (by decide) 1 (by decide),
   (c5_redirect_termination t302loop jl0 r0 "GET" (some "http://svc/node/1") none 0).2
      (fun _ => rfl) 5⟩

/-! ## C8 — request headers -/

/-- Every request issued during a dispatch (the initial one and every
redirect follow-up) carries exactly the headers the source builds for its
own payload: both `Accept` and `Content-Type` mapped to the resource's
content type when a payload is present, only `Accept` otherwise. -/
theorem requestFuel_req_headers (t : Transport) (jload : String → Except String JVal) :
    ∀ (fuel : Nat) (r : Resource) (method : String) (uri data : Option String) (id : Nat)
      (r2 : Resource) (nid : Nat) (evts : List Event) (res : Except PyError JVal),
      requestFuel t jload fuel r method uri data id = some (r2, nid, evts, res) →
      ∀ i q, Event.req i q ∈ evts → q.headers = requestHeaders r.content_type q.data := by
  intro fuel
  induction fuel with
  | zero =>
    intro r method uri data id r2 nid evts res hsome
    exact absurd hsome (by simp [requestFuel])
  | succ fuel ih =>
    intro r method uri data id r2 nid evts res hsome i q hmem
    simp only [requestFuel] at hsome
    by_cases h200 : (t (mkRequest r.content_type method uri data)).status_code = 200
    · rw [if_pos h200] at hsome
      by_cases hbody : (truthy (t (mkRequest r.content_type method uri data)).content_length ∨
          headerGet (t (mkRequest r.content_type method uri data)).headers "transfer-encoding" =
            some "chunked")
      · rw [if_pos hbody] at hsome
        cases hj : jload (t (mkRequest r.content_type method uri data)).body <;>
          rw [hj] at hsome <;> cases hsome <;> simp at hmem <;>
          · obtain ⟨-, rfl⟩ := hmem
            rfl
      · rw [if_neg hbody] at hsome
        cases hsome
        simp at hmem
        obtain ⟨-, rfl⟩ := hmem
        rfl
    · rw [if_neg h200] at hsome
      by_cases h201 : (t (mkRequest r.content_type method uri data)).status_code = 201
      · rw [if_pos h201] at hsome
        cases hsome
        simp at hmem
        obtain ⟨-, rfl⟩ := hmem
        rfl
      · rw [if_neg h201] at hsome
        by_cases h204 : (t (mkRequest r.content_type method uri data)).status_code = 204
        · rw [if_pos h204] at hsome
          cases hsome
          simp at hmem
          obtain ⟨-, rfl⟩ := hmem
          rfl
        · rw [if_neg h204] at hsome
          by_cases h302 : (t (mkRequest r.content_type method uri data)).status_code = 302
          · rw [if_pos h302] at hsome
            rcases hrec : requestFuel t jload fuel
                { r with responseHeaders := some (t (mkRequest r.content_type method uri data)).headers }
                "GET" (headerGet (t (mkRequest r.content_type method uri data)).headers "location")
                none (id + 1) with _ | ⟨r3, nid3, evts3, res3⟩
            · rw [hrec] at hsome
              cases hsome
            · rw [hrec] at hsome
              cases hsome
              rcases List.mem_cons.mp hmem with heq | hmem2
              · obtain ⟨-, rfl⟩ : i = id ∧ q = mkRequest r.content_type method uri data := by
                  simpa using heq
                rfl
              · rcases List.mem_append.mp hmem2 with hde | hr
                · rcases List.mem_append.mp hde with hd | he
                  · by_cases hmc :
                        (t (mkRequest r.content_type method uri data)).message_complete <;>
                      simp [hmc] at hd
                  · exact ih _ "GET" _ none (id + 1) _ _ _ _ hrec i q he
                · simp at hr
          · rw [if_neg h302] at hsome
            by_cases h400 : (t (mkRequest r.content_type method uri data)).status_code = 400
            · rw [if_pos h400] at hsome
              cases hsome
              simp at hmem
              obtain ⟨-, rfl⟩ := hmem
              rfl
            · rw [if_neg h400] at hsome
              by_cases h404 : (t (mkRequest r.content_type method uri data)).status_code = 404
              · rw [if_pos h404] at hsome
                cases hsome
                simp at hmem
                obtain ⟨-, rfl⟩ := hmem
                rfl
              · rw [if_neg h404] at hsome
                by_cases h409 : (t (mkRequest r.content_type method uri data)).status_code = 409
                · rw [if_pos h409] at hsome
                  cases hsome
                  simp at hmem
                  obtain ⟨-, rfl⟩ := hmem
                  rfl
                · rw [if_neg h409] at hsome
                  cases hsome
                  simp at hmem
                  obtain ⟨-, rfl⟩ := hmem
                  rfl

/-- Claim C8: every request a dispatch issues carries an `Accept` header
set to the resource's content type, and carries a `Content-Type` header
set to the content type if and only if that request has a payload (the
initial request's own payload; redirect follow-ups have none). -/
theorem c8_request_headers (t : Transport) (jload : String → Except String JVal)
    (fuel : Nat) (r : Resource) (method : String) (uri data : Option String) (id : Nat)
    (r2 : Resource) (nid : Nat) (evts : List Event) (res : Except PyError JVal)
    (hsome : requestFuel t jload fuel r method uri data id = some (r2, nid, evts, res)) :
    ∀ i q, Event.req i q ∈ evts →
      ("Accept", r.content_type) ∈ q.headers ∧
      (("Content-Type", r.content_type) ∈ q.headers ↔ q.data.isSome = true) := by
  intro i q hmem
  have h := requestFuel_req_headers t jload fuel r method uri data id r2 nid evts res hsome i q hmem
  rw [h]
  cases q.data <;> simp [requestHeaders, getRequestHeaders]

/-- Witness for C8 on the redirect run of `t302once`: the follow-up `GET`
(no payload) carries `Accept` but not `Content-Type`. -/
theorem c8_request_headers_witness :
    ("Accept", "application/json") ∈
      (mkRequest "application/json" "GET" (some "http://svc/new") none).headers ∧
    ((("Content-Type", "application/json") ∈
        (mkRequest "application/json" "GET" (some "http://svc/new") none).headers) ↔
      (mkRequest "application/json" "GET" (some "http://svc/new") none).data.isSome = true) := by
  have h := c8_request_headers t302once jl0 2 r0 "GET" (some "http://svc/old") none 0
    ({ r0 with responseHeaders := some [("transfer-encoding", "chunked")] }) 2
    [.req 0 (mkRequest "application/json" "GET" (some "http://svc/old") none), .readEv 0,
     .req 1 (mkRequest "application/json" "GET" (some "http://svc/new") none), .readEv 1,
     .releaseEv 1, .releaseEv 0]
    (.ok (.jobj [("people", .jstr "/people")])) rfl
  exact h 1 (mkRequest "application/json" "GET" (some "http://svc/new") none) (by decide)

/-! ## Helper lemmas about `_lookup` -/

/-- The resource state after a lookup whose lazy fetch returned `v` under
final response headers `hs`: index stored, headers recorded, URI
possibly self-corrected. -/
def lookupResult (r : Resource) (hs : List (String × String)) (v : JVal) : Resource :=
  adoptContentLocation { r with index := v, responseHeaders := some hs }

theorem lookupResult_index (r : Resource) (hs : List (String × String)) (v : JVal) :
    (lookupResult r hs v).index = v := by
  unfold lookupResult
  rw [adoptContentLocation_index]

theorem lookupResult_content_type (r : Resource) (hs : List (String × String)) (v : JVal) :
    (lookupResult r hs v).content_type = r.content_type := by
  unfold lookupResult
  rw [adoptContentLocation_content_type]

theorem lookupResult_uri_of_some (r : Resource) (hs : List (String × String)) (v : JVal)
    (cl : String) (hcl : headerGet hs "content-location" = some cl) :
    (lookupResult r hs v).uri = cl :=
  adoptContentLocation_uri_of_some _ hs cl rfl hcl

theorem lookupResult_uri_of_none (r : Resource) (hs : List (String × String)) (v : JVal)
    (hcl : headerGet hs "content-location" = none) :
    (lookupResult r hs v).uri = r.uri :=
  adoptContentLocation_uri_of_none _ hs rfl hcl

/-- Unfolding of `_lookup` when no index is cached and the fetch returns
a value: the index is stored, the URI self-correction applies, and the
key is then looked up in the new state. -/
theorem lookupFuel_fetch_ok (t : Transport) (jload : String → Except String JVal)
    (fuel : Nat) (r : Resource) (key : String) (id : Nat)
    (r1 : Resource) (nid : Nat) (evts : List Event) (v : JVal)
    (hidx : r.index = .jnull)
    (hreq : requestFuel t jload fuel r "GET" (some r.uri) none id = some (r1, nid, evts, .ok v)) :
    lookupFuel t jload fuel r key id =
      some (adoptContentLocation { r1 with index := v }, nid, evts,
        finishLookup (adoptContentLocation { r1 with index := v }) key) := by
  unfold lookupFuel
  simp only [hidx]
  rw [hreq]

/-- Unfolding of `_lookup` when no index is cached and the fetch raises:
the error propagates, the index stays unassigned. -/
theorem lookupFuel_fetch_error (t : Transport) (jload : String → Except String JVal)
    (fuel : Nat) (r : Resource) (key : String) (id : Nat)
    (r1 : Resource) (nid : Nat) (evts : List Event) (e : PyError)
    (hidx : r.index = .jnull)
    (hreq : requestFuel t jload fuel r "GET" (some r.uri) none id =
      some (r1, nid, evts, .error e)) :
    lookupFuel t jload fuel r key id = some (r1, nid, evts, .error e) := by
  unfold lookupFuel
  simp only [hidx]
  rw [hreq]

/-- Unfolding of `_lookup` when an index is cached: no request, no state
change, the key is looked up in the cached index. -/
theorem lookupFuel_cached (t : Transport) (jload : String → Except String JVal)
    (fuel : Nat) (r : Resource) (key : String) (id : Nat)
    (hidx : r.index ≠ .jnull) :
    lookupFuel t jload fuel r key id = some (r, id, [], finishLookup r key) := by
  unfold lookupFuel
  rcases hix : r.index with _ | b | n | s | xs | fs
  · exact absurd hix hidx
  all_goals simp only [hix]

/-- The membership test of `_lookup` on a `None` index raises
`TypeError`. -/
theorem finishLookup_jnull (r : Resource) (key : String) (h : r.index = .jnull) :
    finishLookup r key = .error (.typeError "argument of type NoneType is not iterable") := by
  unfold finishLookup
  rw [h]
  rfl

/-! ## C6 — lazy index: one fetch, cached thereafter -/

/-- Claim C6: with no index cached, a lookup issues exactly one request —
a `GET` against the resource's own URI — and stores the fetched object as
the index; with an index cached (any non-`None` value, in particular the
one just fetched) a lookup issues no request and leaves the resource
state, index included, unchanged, so the index is created at most once
and never invalidated; and a key absent from a cached index object fails
with `KeyError` on that key. -/
theorem c6_lazy_index (t : Transport) (jload : String → Except String JVal)
    (fuel : Nat) (r : Resource) (key : String) (id : Nat)
    (q0 : Request) (resp : Response)
    (hq : q0 = mkRequest r.content_type "GET" (some r.uri) none)
    (hresp : resp = t q0) :
    (r.index = .jnull → resp.status_code = 200 →
      (truthy resp.content_length ∨ headerGet resp.headers "transfer-encoding" = some "chunked") →
      ∀ fs, jload resp.body = .ok (.jobj fs) →
      lookupFuel t jload (fuel + 1) r key id =
        some (lookupResult r resp.headers (.jobj fs), id + 1,
          [.req id q0, .readEv id, .releaseEv id],
          finishLookup (lookupResult r resp.headers (.jobj fs)) key) ∧
      (lookupResult r resp.headers (.jobj fs)).index = .jobj fs) ∧
    (r.index ≠ .jnull →
      lookupFuel t jload fuel r key id = some (r, id, [], finishLookup r key)) ∧
    (∀ fs, r.index = .jobj fs → (fs.any fun p => p.1 == key) = false →
      lookupFuel t jload fuel r key id = some (r, id, [], .error (.keyError key))) := by
  refine ⟨?_, ?_, ?_⟩
  · intro hidx h200 hbody fs hj
    have hreq := (requestFuel_success_cases t jload fuel r "GET" (some r.uri) none id q0 resp
      hq hresp).1 h200 hbody
    simp only [hj] at hreq
    refine ⟨lookupFuel_fetch_ok t jload (fuel + 1) r key id _ _ _ _ hidx hreq, ?_⟩
    exact lookupResult_index r resp.headers (.jobj fs)
  · intro hidx
    exact lookupFuel_cached t jload fuel r key id hidx
  · intro fs hix hany
    rw [lookupFuel_cached t jload fuel r key id (by rw [hix]; simp)]
    unfold finishLookup
    rw [hix]
    simp [JVal.pyContains, hany]

/-- Witness for C6: a first lookup against `t200` fetches and stores the
decoded index (one request), a second lookup on the result issues none
and returns the cached value, and a missing key on a cached index raises
`KeyError`. -/
theorem c6_lazy_index_witness :
    lookupFuel t200 jl0 1 r0 "people" 0 =
      some (lookupResult r0 [("transfer-encoding", "chunked")]
          (.jobj [("people", .jstr "/people")]), 1,
        [.req 0 (mkRequest "application/json" "GET" (some "http://svc/node/1") none),
         .readEv 0, .releaseEv 0],
        finishLookup (lookupResult r0 [("transfer-encoding", "chunked")]
          (.jobj [("people", .jstr "/people")])) "people") ∧
    lookupFuel t200 jl0 1
        { r0 with index := .jobj [("people", .jstr "/people")] } "people" 7 =
      some ({ r0 with index := .jobj [("people", .jstr "/people")] }, 7, [],
        finishLookup { r0 with index := .jobj [("people", .jstr "/people")] } "people") ∧
    lookupFuel t200 jl0 1
        { r0 with index := .jobj [("people", .jstr "/people")] } "missing" 7 =
      some ({ r0 with index := .jobj [("people", .jstr "/people")] }, 7, [],
        .error (.keyError "missing")) :=
  ⟨((c6_lazy_index t200 jl0 0 r0 "people" 0 _ _ rfl rfl).1 rfl rfl (Or.inr rfl)
      [("people", .jstr "/people")] rfl).1,
   (c6_lazy_index t200 jl0 1 { r0 with index := .jobj [("people", .jstr "/people")] }
      "people" 7 _ _ rfl rfl).2.1 (by simp),
   (c6_lazy_index t200 jl0 1 { r0 with index := .jobj [("people", .jstr "/people")] }
      "missing" 7 _ _ rfl rfl).2.2 [("people", .jstr "/people")] rfl (by decide)⟩

/-! ## C7 — Content-Location URI self-correction -/

/-- Transport answering 200 (chunked) with a `content-location` header. -/
def t200cloc : Transport := fun _ =>
  { status_code := 200,
    headers := [("transfer-encoding", "chunked"), ("content-location", "http://svc/canonical")],
    content_length := none, message_complete := true, body := "INDEX" }

/-- Claim C7: after the lazy index fetch, the resource's URI is replaced
by the `content-location` header value when the fetch's response carries
one and is unchanged when it does not; besides the URI, only the cached
index (and the internal response-headers attribute the source always
overwrites on a request) change — the content type is untouched. -/
theorem c7_content_location (t : Transport) (jload : String → Except String JVal)
    (fuel : Nat) (r : Resource) (key : String) (id : Nat)
    (q0 : Request) (resp : Response)
    (hq : q0 = mkRequest r.content_type "GET" (some r.uri) none)
    (hresp : resp = t q0)
    (hidx : r.index = .jnull) (h200 : resp.status_code = 200)
    (hbody : truthy resp.content_length ∨
      headerGet resp.headers "transfer-encoding" = some "chunked")
    (v : JVal) (hj : jload resp.body = .ok v) :
    lookupFuel t jload (fuel + 1) r key id =
      some (lookupResult r resp.headers v, id + 1, [.req id q0, .readEv id, .releaseEv id],
        finishLookup (lookupResult r resp.headers v) key) ∧
    (∀ cl, headerGet resp.headers "content-location" = some cl →
      (lookupResult r resp.headers v).uri = cl) ∧
    (headerGet resp.headers "content-location" = none →
      (lookupResult r resp.headers v).uri = r.uri) ∧
    (lookupResult r resp.headers v).content_type = r.content_type ∧
    (lookupResult r resp.headers v).index = v := by
  have hreq := (requestFuel_success_cases t jload fuel r "GET" (some r.uri) none id q0 resp
    hq hresp).1 h200 hbody
  simp only [hj] at hreq
  exact ⟨lookupFuel_fetch_ok t jload (fuel + 1) r key id _ _ _ _ hidx hreq,
    fun cl hcl => lookupResult_uri_of_some r resp.headers v cl hcl,
    fun hcl => lookupResult_uri_of_none r resp.headers v hcl,
    lookupResult_content_type r resp.headers v,
    lookupResult_index r resp.headers v⟩

/-- Witness for C7: with a `content-location` header the looked-up
resource's URI becomes that value (content type untouched); without one
it keeps the constructed URI. -/
theorem c7_content_location_witness :
    (lookupResult r0
        [("transfer-encoding", "chunked"), ("content-location", "http://svc/canonical")]
        (.jobj [("people", .jstr "/people")])).uri = "http://svc/canonical" ∧
    (lookupResult r0
        [("transfer-encoding", "chunked"), ("content-location", "http://svc/canonical")]
        (.jobj [("people", .jstr "/people")])).content_type = "application/json" ∧
    (lookupResult r0 [("transfer-encoding", "chunked")]
        (.jobj [("people", .jstr "/people")])).uri = "http://svc/node/1" :=
  ⟨(c7_content_location t200cloc jl0 0 r0 "people" 0 _ _ rfl rfl rfl rfl (Or.inr rfl)
      (.jobj [("people", .jstr "/people")]) rfl).2.1 "http://svc/canonical" rfl,
   (c7_content_location t200cloc jl0 0 r0 "people" 0 _ _ rfl rfl rfl rfl (Or.inr rfl)
      (.jobj [("people", .jstr "/people")]) rfl).2.2.2.1,
   (c7_content_location t200 jl0 0 r0 "people" 0 _ _ rfl rfl rfl rfl (Or.inr rfl)
      (.jobj [("people", .jstr "/people")]) rfl).2.2.1 rfl⟩

/-! ## C10 — lookup after a fetch that returns nothing -/

/-- Claim C10: when the lazy index fetch returns `None` (a 204, or a 200
with an empty body), the lookup stores `None` as the index and the
membership test `key in None` raises `TypeError` — not `KeyError`; the
index is `None` again (Python cannot tell the stored `None` from the
unset marker), the URI is unchanged (no `content-location` in the
response), and a second lookup re-enters the fetch branch, issuing the
`GET` against the resource's URI again and failing the same way. -/
theorem c10_null_index (t : Transport) (jload : String → Except String JVal)
    (fuel : Nat) (r : Resource) (key key2 : String) (id id2 : Nat)
    (q0 : Request) (resp : Response)
    (hq : q0 = mkRequest r.content_type "GET" (some r.uri) none)
    (hresp : resp = t q0)
    (hidx : r.index = .jnull)
    (hstatus : resp.status_code = 204 ∨ (resp.status_code = 200 ∧
      ¬ (truthy resp.content_length ∨
        headerGet resp.headers "transfer-encoding" = some "chunked")))
    (hcl : headerGet resp.headers "content-location" = none) :
    lookupFuel t jload (fuel + 1) r key id =
      some (lookupResult r resp.headers .jnull, id + 1, [.req id q0, .releaseEv id],
        .error (.typeError "argument of type NoneType is not iterable")) ∧
    (lookupResult r resp.headers .jnull).index = .jnull ∧
    (lookupResult r resp.headers .jnull).uri = r.uri ∧
    lookupFuel t jload (fuel + 1) (lookupResult r resp.headers .jnull) key2 id2 =
      some (lookupResult (lookupResult r resp.headers .jnull) resp.headers .jnull, id2 + 1,
        [.req id2 (mkRequest (lookupResult r resp.headers .jnull).content_type "GET"
            (some (lookupResult r resp.headers .jnull).uri) none), .releaseEv id2],
        .error (.typeError "argument of type NoneType is not iterable")) := by
  have hidx2 : (lookupResult r resp.headers .jnull).index = .jnull :=
    lookupResult_index r resp.headers .jnull
  have huri2 : (lookupResult r resp.headers .jnull).uri = r.uri :=
    lookupResult_uri_of_none r resp.headers .jnull hcl
  have hct2 : (lookupResult r resp.headers .jnull).content_type = r.content_type :=
    lookupResult_content_type r resp.headers .jnull
  have hreq : requestFuel t jload (fuel + 1) r "GET" (some r.uri) none id =
      some ({ r with responseHeaders := some resp.headers }, id + 1,
        [.req id q0, .releaseEv id], .ok .jnull) := by
    rcases hstatus with h204 | ⟨h200, hnb⟩
    · exact (requestFuel_success_cases t jload fuel r "GET" (some r.uri) none id q0 resp
        hq hresp).2.2.2 h204
    · exact (requestFuel_success_cases t jload fuel r "GET" (some r.uri) none id q0 resp
        hq hresp).2.1 h200 hnb
  have h1 := lookupFuel_fetch_ok t jload (fuel + 1) r key id _ _ _ _ hidx hreq
  have hfin : finishLookup (adoptContentLocation
      { { r with responseHeaders := some resp.headers } with index := JVal.jnull }) key =
      .error (.typeError "argument of type NoneType is not iterable") :=
    finishLookup_jnull _ key (by rw [adoptContentLocation_index])
  refine ⟨h1.trans (by rw [hfin]; rfl), hidx2, huri2, ?_⟩
  have hresp2 : resp = t (mkRequest (lookupResult r resp.headers .jnull).content_type "GET"
      (some (lookupResult r resp.headers .jnull).uri) none) := by
    rw [hct2, huri2, ← hq]
    exact hresp
  have hreq2 : requestFuel t jload (fuel + 1) (lookupResult r resp.headers .jnull) "GET"
      (some (lookupResult r resp.headers .jnull).uri) none id2 =
      some ({ lookupResult r resp.headers .jnull with responseHeaders := some resp.headers },
        id2 + 1,
        [.req id2 (mkRequest (lookupResult r resp.headers .jnull).content_type "GET"
            (some (lookupResult r resp.headers .jnull).uri) none), .releaseEv id2],
        .ok .jnull) := by
    rcases hstatus with h204 | ⟨h200, hnb⟩
    · exact (requestFuel_success_cases t jload fuel (lookupResult r resp.headers .jnull) "GET"
        (some (lookupResult r resp.headers .jnull).uri) none id2 _ resp rfl hresp2).2.2.2 h204
    · exact (requestFuel_success_cases t jload fuel (lookupResult r resp.headers .jnull) "GET"
        (some (lookupResult r resp.headers .jnull).uri) none id2 _ resp rfl hresp2).2.1 h200 hnb
  have h4 := lookupFuel_fetch_ok t jload (fuel + 1) (lookupResult r resp.headers .jnull)
    key2 id2 _ _ _ _ hidx2 hreq2
  have hfin2 : finishLookup (adoptContentLocation
      { { lookupResult r resp.headers .jnull with responseHeaders := some resp.headers } with
        index := JVal.jnull }) key2 =
      .error (.typeError "argument of type NoneType is not iterable") :=
    finishLookup_jnull _ key2 (by rw [adoptContentLocation_index])
  exact h4.trans (by rw [hfin2]; rfl)

/-- Witness for C10 at `t204`: the first and second lookups both issue
the same `GET` and both fail with `TypeError`, the index staying
`None`. -/
theorem c10_null_index_witness :
    lookupFuel t204 jl0 1 r0 "people" 0 =
      some (lookupResult r0 [] .jnull, 1,
        [.req 0 (mkRequest "application/json" "GET" (some "http://svc/node/1") none),
         .releaseEv 0],
        .error (.typeError "argument of type NoneType is not iterable")) ∧
    (lookupResult r0 [] .jnull).index = .jnull ∧
    (lookupResult r0 [] .jnull).uri = "http://svc/node/1" ∧
    lookupFuel t204 jl0 1 (lookupResult r0 [] .jnull) "people" 1 =
      some (lookupResult (lookupResult r0 [] .jnull) [] .jnull, 2,
        [.req 1 (mkRequest "application/json" "GET" (some "http://svc/node/1") none),
         .releaseEv 1],
        .error (.typeError "argument of type NoneType is not iterable")) :=
  c10_null_index t204 jl0 0 r0 "people" "people" 0 1 _ _ rfl rfl rfl (Or.inl rfl) rfl
